import Mathlib

/-
Verification of the HolyTree MCP server (src/HolyTree_MCP/holy_tree_server.py)
against its natural-language specification.

The Python source is shallowly embedded: each relevant method is translated
into an executable Lean definition over `List Char` / `String` / `List`
models of Python strings, dicts (as insertion-ordered lists) and the
filesystem (as a list of directory paths).  Python's `re` idioms are
translated into the equivalent explicit scans, documented at each site.
-/

/- ------------------------------------------------------------------ -/
/- String utilities modelling the Python primitives used by the server -/
/- ------------------------------------------------------------------ -/

/-- ASCII whitespace recognized by Python's `str.strip()` / `\s`
(restricted to the ASCII range, which covers every input the server
handles; the tree glyphs and emoji are not whitespace in either reading). -/
def isPySpace (c : Char) : Bool :=
  c == ' ' || c == '\t' || c == '\n' || c == '\r' || c == '\x0b' || c == '\x0c'

/-- Drop trailing characters satisfying `p` (helper for `str.strip`). -/
def dropTrailing (p : Char → Bool) (l : List Char) : List Char :=
  (l.reverse.dropWhile p).reverse

/-- Python `str.strip()` on a character list. -/
def trimChars (l : List Char) : List Char :=
  dropTrailing isPySpace (l.dropWhile isPySpace)

/-- Python `str.strip()` on a `String`. -/
def stripStr (s : String) : String := ⟨trimChars s.data⟩

/-- Python `pat in s` (substring containment) on character lists. -/
def containsSub (pat : List Char) : List Char → Bool
  | [] => pat.isEmpty
  | c :: cs => pat.isPrefixOf (c :: cs) || containsSub pat cs

/-- Python `pat in s` on `String`s. -/
def containsSubstr (pat s : String) : Bool := containsSub pat.data s.data

/-- Python `s.startswith(pre)`. -/
def pyStartsWith (pre s : String) : Bool := pre.data.isPrefixOf s.data

/-- Fuelled worker for Python `str.replace(old, new)`: leftmost,
non-overlapping replacement.  The fuel argument (instantiated with the
length of the list, which bounds the number of recursive calls) only
serves to make the recursion structural; the `0` branch is unreachable
for that instantiation. -/
def replaceSubFuel (pat repl : List Char) : Nat → List Char → List Char
  | 0, l => l
  | _ + 1, [] => []
  | fuel + 1, c :: cs =>
    if pat ≠ [] ∧ pat.isPrefixOf (c :: cs) = true then
      repl ++ replaceSubFuel pat repl fuel (cs.drop (pat.length - 1))
    else
      c :: replaceSubFuel pat repl fuel cs

/-- Python `s.replace(old, new)` on character lists (`old` is nonempty at
every call site, as in the source). -/
def pyReplace (pat repl l : List Char) : List Char :=
  replaceSubFuel pat repl l.length l

/-- Worker for Python `str.split()` (split on whitespace runs, no empty
tokens); the accumulator holds the current token reversed. -/
def splitWsAux : List Char → List Char → List (List Char)
  | [], acc => if acc.isEmpty then [] else [acc.reverse]
  | c :: cs, acc =>
    if isPySpace c then
      if acc.isEmpty then splitWsAux cs [] else acc.reverse :: splitWsAux cs []
    else splitWsAux cs (c :: acc)

/-- Python `s.split()` (whitespace tokenization). -/
def pyTokens (s : String) : List String := (splitWsAux s.data []).map (fun l => ⟨l⟩)

/-- First whitespace-delimited token of `line.strip()`, or `""` when there
is none (models `line.strip().split()[0] if line.strip().split() else ''`). -/
def firstTokenOf (line : String) : String := ⟨(splitWsAux (trimChars line.data) []).headD []⟩

/-- Worker for Python `s.split('.')`; the accumulator holds the current
component reversed.  `"".split('.') == ['']` is reproduced. -/
def splitDotsAux : List Char → List Char → List (List Char)
  | [], acc => [acc.reverse]
  | c :: cs, acc => if c == '.' then acc.reverse :: splitDotsAux cs [] else splitDotsAux cs (c :: acc)

/-- Python `number.split('.')` on a `String`. -/
def splitDots (s : String) : List (List Char) := splitDotsAux s.data []

/-- Python `'.'.join(parts)`. -/
def joinParts (ps : List (List Char)) : List Char := List.intercalate ['.'] ps

/-- Number of dotted components, `len(number.split('.'))`. -/
def numberComponents (s : String) : Nat := (splitDots s).length

/-- Parent number of a dotted number: `'.'.join(number.split('.')[:-1])`. -/
def parentNumber (s : String) : String := ⟨joinParts ((splitDots s).dropLast)⟩

/-- Test for `re.match(r'^\d+$', t)`: a nonempty all-digit token. -/
def isPureIntToken (t : String) : Bool := !t.data.isEmpty && t.data.all Char.isDigit

/- ------------------------------------------------------------------ -/
/- Data model: HolyTreeEntity (dataclass at holy_tree_server.py:31)    -/
/- ------------------------------------------------------------------ -/

/-- Entity kind; the Python source stores the strings
`'domain' | 'object' | 'layer'` in the `type` field. -/
inductive EntityType where
  | domain
  | object
  | layer
deriving DecidableEq

/-- The `HolyTreeEntity` dataclass.  `classification` is the dict the
parser always initializes to `{}` ("will be populated by classifier"),
modelled as an association list of boolean flags read via `dict.get`. -/
structure HolyTreeEntity where
  name : String
  type : EntityType
  number : String
  level : Nat
  parent_path : String
  classification : List (String × Bool)
  ascii_line : String
deriving DecidableEq

/-- `classification.get(key, False)` on an entity. -/
def classificationGet (e : HolyTreeEntity) (key : String) : Bool :=
  (((e.classification.find? (fun pr => pr.1 == key)).map (fun pr => pr.2)).getD false)

/- ------------------------------------------------------------------ -/
/- HolyTreeParser._parse_ascii_line (holy_tree_server.py:117)          -/
/- ------------------------------------------------------------------ -/

/-- Scan for `re.search(r'[├└]──\s*(.+)$', line)`: the leftmost branch
glyph followed by `──` with at least one character after it; returns the
text after the three glyph characters.  (When the glyph sits at the very
end of the line the regex cannot match `(.+)` there and the search moves
on, hence the recursive call in that branch.  The preliminary
`any(symbol in line ...)` membership test in the source is equivalent to
this scan succeeding or the glyph occurring only at the end, in which
case both the source and this model reject the line.) -/
def findGlyphRest : List Char → Option (List Char)
  | [] => none
  | c :: cs =>
    if (c == '├' || c == '└') && (['─', '─'].isPrefixOf cs) then
      if cs.drop 2 = [] then findGlyphRest cs else some (cs.drop 2)
    else findGlyphRest cs

/-- Maximal leading run of digits and dots of `content`; candidate text
for the number regex. -/
def dottedRun (l : List Char) : List Char := l.takeWhile (fun c => c.isDigit || c == '.')

/-- Whether a run is of the shape `digits(.digits)*`, i.e. every
dot-separated component is nonempty and all digits. -/
def wellFormedDotted (run : List Char) : Bool :=
  (splitDotsAux run []).all (fun p => !p.isEmpty && p.all Char.isDigit)

/-- `re.search(r'^([\d]+(?:\.[\d]+)*(?:\.[1-5])?)\s+', content)`.
Since every candidate match lies inside the leading digit/dot run and
must be followed by whitespace — and no character inside the run is
whitespace — the regex matches exactly when the full leading run is a
well-formed dotted number and the character right after it is
whitespace.  The `(?:\.[1-5])?` tail is subsumed by `(?:\.[\d]+)*`. -/
def extractNumber (content : List Char) : Option (List Char) :=
  let run := dottedRun content
  match content.drop run.length with
  | c :: _ => if wellFormedDotted run && isPySpace c then some run else none
  | [] => none

/-- Python's `\w` over the alphabet this server manipulates
(ASCII letters, digits, underscore; the box glyphs, emoji, `#`, `/` and
whitespace are non-word characters in both readings). -/
def isWordChar (c : Char) : Bool := c.isAlphanum || c == '_'

/-- `re.sub(r'[^\w_]', '_', name).strip('_')`: every non-word character
becomes an underscore (runs are NOT collapsed), then leading/trailing
underscores are stripped. -/
def normalizeName (l : List Char) : List Char :=
  dropTrailing (fun c => c == '_')
    ((l.map (fun c => if isWordChar c then c else '_')).dropWhile (fun c => c == '_'))

/-- `HolyTreeParser._parse_ascii_line`: parse a single ASCII tree line
into an entity, or `none` when the line is skipped. -/
def parse_ascii_line (line : String) (currentPath : List String) : Option HolyTreeEntity :=
  let stripped := trimChars line.data
  match findGlyphRest stripped with
  | none => none
  | some rest =>
    let content := trimChars rest
    match extractNumber content with
    | none => none
    | some numRun =>
      let number : String := ⟨numRun⟩
      let entityContent := trimChars (pyReplace numRun [] content)
      if entityContent.isEmpty then none
      else
        let hasFolder := containsSub "📁".data entityContent
        let iconless :=
          if hasFolder then
            trimChars (pyReplace "/".data [] (pyReplace "📁 ".data [] entityContent))
          else
            trimChars (pyReplace "/".data [] entityContent)
        let etype :=
          if numberComponents number == 1 && hasFolder then EntityType.domain
          else if 2 ≤ numberComponents number ∧ hasFolder = true then EntityType.object
          else EntityType.layer
        let nm := normalizeName iconless
        if nm.isEmpty then none
        else
          some {
            name := ⟨nm⟩
            type := etype
            number := number
            level := numberComponents number
            parent_path := String.intercalate "/" (currentPath.filter (fun p => p ≠ ""))
            classification := []
            ascii_line := line }

/-- The single concrete line from the spec example (C1). -/
def c1Line : String := "├── 4.2 📁 Processing_Router/          # comment"

/- ------------------------------------------------------------------ -/
/- EntityGraph: the parser's `self.entities` dict                      -/
/- ------------------------------------------------------------------ -/

/-- The parser's `self.entities` dict (number → entity), modelled as the
insertion-ordered list of its values; dict iteration order is list
order and keys are the entities' `number` fields. -/
abbrev HolyTreeGraph := List HolyTreeEntity

/-- `self.entities.get(number)` / `self.entities[number]`. -/
def get_entity_by_number (g : HolyTreeGraph) (n : String) : Option HolyTreeEntity :=
  g.find? (fun e => e.number == n)

/-- `number in self.entities` (key membership). -/
def isKey (g : HolyTreeGraph) (n : String) : Bool := (get_entity_by_number g n).isSome

/-- `get_entities_by_level`: all entities whose `level` field equals `lvl`. -/
def get_entities_by_level (g : HolyTreeGraph) (lvl : Nat) : List HolyTreeEntity :=
  g.filter (fun e => e.level == lvl)

/- ------------------------------------------------------------------ -/
/- HolyTreeParser.validate_holy_tree_structure (py:199)                -/
/- ------------------------------------------------------------------ -/

/-- The "missing parent" check of `validate_holy_tree_structure` for a
single entity: for `entity.level > 1`, the parent number
(`'.'.join(number.split('.')[:-1])`) must be a key of the graph. -/
def missingParentIssue (g : HolyTreeGraph) (e : HolyTreeEntity) : Option String :=
  if 1 < e.level ∧ isKey g (parentNumber e.number) = false then
    some ("Missing parent for " ++ e.number ++ ": parent " ++ parentNumber e.number ++ " not found")
  else none

/-- The `issues` list accumulated by the first loop of
`validate_holy_tree_structure`, in dict iteration order. -/
def missingParentIssues (g : HolyTreeGraph) : List String :=
  g.filterMap (missingParentIssue g)

/-- `domain_numbers = [e.number for e in self.get_entities_by_level(1)]`. -/
def domainLevelNumbers (g : HolyTreeGraph) : List String :=
  (get_entities_by_level g 1).map (fun e => e.number)

/-- The dict returned by `validate_holy_tree_structure`. -/
structure ValidationReport where
  valid : Bool
  issues : List String
  integrity_score : String
deriving DecidableEq

/-- `validate_holy_tree_structure`.  The numerical-consistency loop
executes `num.match(r'^\d+$')` where `num` is a Python `str`; `str` has
no `match` method, so the first iteration raises `AttributeError`.
Hence: when at least one level-1 entity exists the call raises
(modelled as `Except.error`); otherwise the loop body never runs and
the report dict is returned with the missing-parent issues and
`integrity_score = f"{100 - len(issues) * 10}%"` (note: no clamping at
0, the score can be negative). -/
def validate_holy_tree_structure (g : HolyTreeGraph) : Except String ValidationReport :=
  let issues := missingParentIssues g
  match domainLevelNumbers g with
  | [] =>
    Except.ok {
      valid := issues.isEmpty
      issues := issues
      integrity_score := toString (100 - 10 * (issues.length : Int)) ++ "%" }
  | _ :: _ => Except.error "AttributeError"

/- ------------------------------------------------------------------ -/
/- HolyTreeProjectGenerator._construct_directory_path (py:283)         -/
/- ------------------------------------------------------------------ -/

/-- The path components below the project root computed by
`_construct_directory_path` (`path_parts` in the source): empty when an
ancestor lookup misses, in which case the source returns the bare
project root. -/
def construct_directory_path_parts (g : HolyTreeGraph) (e : HolyTreeEntity) : List String :=
  match e.type with
  | EntityType.domain => [e.name]
  | EntityType.object =>
    let domainNumber : String := ⟨(splitDots e.number).headD []⟩
    match get_entity_by_number g domainNumber with
    | some d => [d.name, e.name]
    | none => []
  | EntityType.layer =>
    let parts := splitDots e.number
    if 2 ≤ parts.length then
      let domainNumber : String := ⟨parts.headD []⟩
      let objectNumber : String := ⟨joinParts (parts.take 2)⟩
      match get_entity_by_number g domainNumber, get_entity_by_number g objectNumber with
      | some d, some o => [d.name, o.name, e.name]
      | some _, none => []
      | none, _ => []
    else []

/-- `self.project_root = Path("ROMILLM_Project")`. -/
def projectRoot : String := "ROMILLM_Project"

/-- Full directory path of an entity, as the list of its segments:
`self.project_root / Path(*path_parts)`. -/
def construct_directory_path (g : HolyTreeGraph) (e : HolyTreeEntity) : List String :=
  projectRoot :: construct_directory_path_parts g e

/-- The ancestor-lookup-miss condition of `_construct_directory_path`:
the exact cases in which the source leaves `path_parts` empty. -/
def ancestorLookupMisses (g : HolyTreeGraph) (e : HolyTreeEntity) : Bool :=
  match e.type with
  | EntityType.domain => false
  | EntityType.object => !isKey g ⟨(splitDots e.number).headD []⟩
  | EntityType.layer =>
    let parts := splitDots e.number
    if 2 ≤ parts.length then
      !isKey g ⟨parts.headD []⟩ || !isKey g ⟨joinParts (parts.take 2)⟩
    else true

/-- The dotted prefixes of a number (as strings): for `"4.2.1"` these are
`"4"`, `"4.2"`, `"4.2.1"`. -/
def prefixNumbersOf (n : String) : List String :=
  (List.range (splitDots n).length).map (fun k => ⟨joinParts ((splitDots n).take (k + 1))⟩)

/-- Formalization of "the entity has zero reachable StructuralIssues":
every dotted prefix of its number (itself, its parent, its parent's
parent, ...) is present in the graph — so no missing-parent issue is
raised for it or any ancestor — and its domain-level ancestor number is
a pure positive integer. -/
def reachableIssueFree (g : HolyTreeGraph) (e : HolyTreeEntity) : Bool :=
  (prefixNumbersOf e.number).all (isKey g) && isPureIntToken ⟨(splitDots e.number).headD []⟩

/- ------------------------------------------------------------------ -/
/- HolyTreeProjectGenerator.generate_project_from_holy_tree (py:232)   -/
/- ------------------------------------------------------------------ -/

/-- The `create_mode` argument.  `"validate"` returns from the function
before the creation loop and is not modelled here. -/
inductive CreateMode where
  | incremental
  | full
deriving DecidableEq

/-- A directory path as its list of segments. -/
abbrev DirPath := List String

/-- The nonempty prefixes of a path: the directories
`mkdir(parents=True)` ensures exist. -/
def dirPrefixes (p : DirPath) : List DirPath := p.inits.filter (fun q => !q.isEmpty)

/-- `dir_path.mkdir(parents=True, exist_ok=True)` on the filesystem
model: the path and all its ancestors now exist.  The filesystem is a
list of existing directories read through membership, so appending
without deduplication is an equivalent set model. -/
def mkdirParents (fs : List DirPath) (p : DirPath) : List DirPath :=
  fs ++ dirPrefixes p

/-- One iteration of the creation loop of
`generate_project_from_holy_tree`: for an entity whose `type` is one of
`'domain' | 'object' | 'layer'` (always true), create its directory when
in full mode or when it does not exist, and record it in
`created_directories`.  (The README files written by
`_generate_basic_files` are plain files, not directories, and do not
affect directory existence; they are outside this model.) -/
def generateStep (g : HolyTreeGraph) (mode : CreateMode)
    (acc : List DirPath × List DirPath) (e : HolyTreeEntity) : List DirPath × List DirPath :=
  if e.type = EntityType.domain ∨ e.type = EntityType.object ∨ e.type = EntityType.layer then
    if mode = CreateMode.full ∨ construct_directory_path g e ∉ acc.1 then
      (mkdirParents acc.1 (construct_directory_path g e),
       acc.2 ++ [construct_directory_path g e])
    else acc
  else acc

/-- `generate_project_from_holy_tree` restricted to its observable
filesystem behaviour: folds the creation loop over the entities in dict
order, returning the final filesystem and the `created_directories`
list.  In the source, full mode performs NO deletion before this loop
(despite the docstring "Remove existing and create from scratch"); the
only difference from incremental mode is that the existence check is
skipped. -/
def generate_project_from_holy_tree (g : HolyTreeGraph) (mode : CreateMode)
    (fs : List DirPath) : List DirPath × List DirPath :=
  g.foldl (generateStep g mode) (fs, [])

/- ------------------------------------------------------------------ -/
/- HolyTreeMCPServer.remove_entity_from_holy_tree (py:472)             -/
/- ------------------------------------------------------------------ -/

/-- The match condition of the removal scan:
`entity_name in line and ('📁' in line or '/' in line)`. -/
def lineMatchesEntity (name line : String) : Bool :=
  containsSubstr name line && (containsSubstr "📁" line || containsSubstr "/" line)

/-- The cascade stop test: `re.search(r'^\d+\.?\d*', first_token)`
succeeds exactly when the first whitespace-delimited token of the
stripped line starts with a digit. -/
def firstTokenStartsDigit (line : String) : Bool :=
  match splitWsAux (trimChars line.data) [] with
  | [] => false
  | t :: _ =>
    match t with
    | [] => false
    | c :: _ => c.isDigit

/-- The inner collection loop of `remove_entity_from_holy_tree`,
started at the matched line: blank lines are skipped (kept), a line
whose first token starts with a digit stops the cascade (kept, with
everything after it), any other line is collected for removal.  Returns
(number of removed lines, kept lines). -/
def cascadeSplit : List String → Nat × List String
  | [] => (0, [])
  | l :: ls =>
    if (trimChars l.data).isEmpty then
      let r := cascadeSplit ls
      (r.1, l :: r.2)
    else if firstTokenStartsDigit l then (0, l :: ls)
    else
      let r := cascadeSplit ls
      (r.1 + 1, r.2)

/-- `remove_entity_from_holy_tree` restricted to its line surgery: find
the first line matching the entity, collect the cascade from it, delete
the collected lines.  Returns `none` when no line matches (the source
returns the `success: False` "not found" dict), otherwise the remaining
lines and `lines_removed`. -/
def remove_entity_from_holy_tree (name : String) : List String → Option (List String × Nat)
  | [] => none
  | l :: ls =>
    if lineMatchesEntity name l then
      some ((cascadeSplit (l :: ls)).2, (cascadeSplit (l :: ls)).1)
    else
      (remove_entity_from_holy_tree name ls).map (fun r => (l :: r.1, r.2))

/- ------------------------------------------------------------------ -/
/- HolyTreeMCPServer.add_entity_to_holy_tree (py:388)                  -/
/- ------------------------------------------------------------------ -/

/-- The observable result dict of `add_entity_to_holy_tree`, restricted
to the fields the claims are about. -/
structure AddEntityResult where
  success : Bool
  error : String
  entity_added : String
  number_assigned : String
deriving DecidableEq

/-- Index of the first line satisfying `p` (the `enumerate` scans). -/
def findIdxFrom (p : String → Bool) : List String → Option Nat
  | [] => none
  | l :: ls => if p l then some 0 else (findIdxFrom p ls).map (fun i => i + 1)

/-- Condition of the first insertion scan:
`f'{domain}/' in line and proposed_number.startswith(line.strip().split()[0])`. -/
def addInsertCond1 (domain propNum : String) (line : String) : Bool :=
  containsSubstr (domain ++ "/") line && pyStartsWith (firstTokenOf line) propNum

/-- The forward scan for the domain end (`insert_index` update loop):
starting at index `i`, stops at a line whose stripped text starts with a
branch glyph and whose first token is a pure integer, else runs to the
end of the lines (yielding the index one past the last line). -/
def scanDomainEndAux (i : Nat) : List String → Nat
  | [] => i
  | l :: ls =>
    if (pyStartsWith "├── " (stripStr l) || pyStartsWith "└── " (stripStr l))
        && isPureIntToken (firstTokenOf l) then i
    else scanDomainEndAux (i + 1) ls

/-- Net effect of `lines.insert(i, entity_line)` followed by inserting
the layer lines in reverse at `i + 1`. -/
def spliceAt (lines : List String) (i : Nat) (newLines : List String) : List String :=
  lines.take i ++ newLines ++ lines.drop i

/-- The decorated layer lines built for an object-level insertion
(`enumerate(layers, 1)`). -/
def layerLinesFor (propNum : String) (layers : List String) : List String :=
  ((List.range layers.length).zip layers).map (fun pr =>
    "│   │   ├── " ++ propNum ++ "." ++ toString (pr.1 + 1) ++ " " ++ pr.2
      ++ "/                # 📦 Layer " ++ toString (pr.1 + 1) ++ ": " ++ pr.2)

/-- `add_entity_to_holy_tree` restricted to its text surgery and return
value: validates required fields, locates the insertion index by the two
scans, splices the decorated lines, and returns the result dict with the
new lines.  When no insertion index is found (`insert_index == -1`) the
function body ends without a `return` statement inside the `try:` block,
so Python returns `None` and the canonical file is never written —
modelled as `(none, lines)`.  (The incremental reconciliation triggered
on success is a filesystem side effect modelled separately by
`generate_project_from_holy_tree`.) -/
def add_entity_to_holy_tree (lines : List String)
    (entityName domain proposedNumber description : String)
    (layers : List String) : Option AddEntityResult × List String :=
  if entityName = "" ∨ domain = "" ∨ proposedNumber = "" then
    (some { success := false,
            error := "Missing required fields: entity_name, domain, proposed_number",
            entity_added := "", number_assigned := "" }, lines)
  else
    let idx? :=
      match findIdxFrom (addInsertCond1 domain proposedNumber) lines with
      | some i => some (i + 1)
      | none =>
        match findIdxFrom (fun l => containsSubstr (domain ++ "/") l) lines with
        | some ds => some (scanDomainEndAux (ds + 1) (lines.drop (ds + 1)))
        | none => none
    match idx? with
    | none => (none, lines)
    | some i =>
      if numberComponents proposedNumber == 2 then
        let asciiLine := "│   ├── " ++ proposedNumber ++ " 📁 " ++ entityName
          ++ "/          # 🎯 Object: " ++ description
        (some { success := true, error := "", entity_added := entityName,
                number_assigned := proposedNumber },
         spliceAt lines i (asciiLine :: layerLinesFor proposedNumber layers))
      else
        let asciiLine := "├── " ++ proposedNumber ++ " 📁 " ++ entityName
          ++ "/          # 🎯 DOMAIN: " ++ description
        (some { success := true, error := "", entity_added := entityName,
                number_assigned := proposedNumber },
         spliceAt lines i
           [asciiLine, "│   └── 📄 README.md                # Domain constitution document"])

/- ------------------------------------------------------------------ -/
/- Concrete demonstration data used by witnesses and counterexamples   -/
/- ------------------------------------------------------------------ -/

/-- Demonstration Domain `4 Core_Domain` (as the parser would produce). -/
def demoDomain : HolyTreeEntity :=
  ⟨"Core_Domain", EntityType.domain, "4", 1, "", [], "├── 4 📁 Core_Domain/"⟩

/-- Demonstration Object `4.2 Processing_Router`. -/
def demoObject : HolyTreeEntity :=
  ⟨"Processing_Router", EntityType.object, "4.2", 2, "4", [], "│   ├── 4.2 📁 Processing_Router/"⟩

/-- Demonstration Layer `4.2.1 Config` (classification is the empty dict
the parser assigns, so every flag reads as False). -/
def demoLayer : HolyTreeEntity :=
  ⟨"Config", EntityType.layer, "4.2.1", 3, "4/4.2", [], "│   │   ├── 4.2.1 Config/"⟩

/-- Well-formed demonstration graph: Domain, Object and Layer with all
parents present. -/
def demoGraph : HolyTreeGraph := [demoDomain, demoObject, demoLayer]

/-- Graph for C7: Domain `4` and an Object numbered `4.2.1` (three
components with a folder glyph parse as an Object) whose direct parent
`4.2` is absent. -/
def c7Object : HolyTreeEntity :=
  ⟨"Processing_Router", EntityType.object, "4.2.1", 3, "", [], "│   │   ├── 4.2.1 📁 Processing_Router/"⟩

/-- C7 counterexample graph. -/
def c7Graph : HolyTreeGraph := [demoDomain, c7Object]

/-- Object for the C7 witness: its domain `7` is absent from the empty
graph. -/
def c7MissObject : HolyTreeEntity :=
  ⟨"Orphan_Object", EntityType.object, "7.1", 2, "", [], ""⟩

/-- Layer with a two-component number (a numbered line without the
folder glyph parses as a Layer) for the C8 counterexample. -/
def c8Layer : HolyTreeEntity :=
  ⟨"Processing_Router", EntityType.layer, "4.2", 2, "4", [], "│   ├── 4.2 Processing_Router/"⟩

/-- C8 counterexample graph: no structural issue anywhere, yet the
two-component Layer resolves to a three-segment path. -/
def c8Graph : HolyTreeGraph := [demoDomain, c8Layer]

/-- Orphan Layer whose parent is absent (generic builder for C6). -/
def orphanLayer (n : String) : HolyTreeEntity :=
  ⟨"Orphan", EntityType.layer, n, 3, "", [], ""⟩

/-- Layer `4.2.1` alone in a graph: the validate() example of the spec. -/
def c6Graph1 : HolyTreeGraph := [orphanLayer "4.2.1"]

/-- Graph with eleven orphan Layers and no level-1 entity: eleven
missing-parent issues, so `100 - 10*11 = -10`. -/
def c6Graph11 : HolyTreeGraph :=
  [orphanLayer "1.1.1", orphanLayer "2.1.1", orphanLayer "3.1.1", orphanLayer "4.1.1",
   orphanLayer "5.1.1", orphanLayer "6.1.1", orphanLayer "7.1.1", orphanLayer "8.1.1",
   orphanLayer "9.1.1", orphanLayer "10.1.1", orphanLayer "11.1.1"]

/-- Filesystem for C3: the generation root already exists and contains a
stale directory that full mode is claimed to delete. -/
def c3Fs : List DirPath :=
  [["ROMILLM_Project"], ["ROMILLM_Project", "Stale_Component"]]

/-- Canonical text for the C2 counterexample: a domain, the object to
remove, its layer, and a LATER SIBLING object `4.3`. -/
def c2Lines : List String :=
  ["├── 4 📁 Core_Domain/",
   "│   ├── 4.2 📁 Processing_Router/",
   "│   │   ├── 4.2.1 Config/",
   "│   ├── 4.3 📁 Other_Component/"]

/-- Canonical text for the C2 witness: object with two layers and a
later sibling domain. -/
def c2WitnessLines : List String :=
  ["├── 5 📁 Template_System/",
   "│   ├── 5.4 📁 Documentation_Generator/",
   "│   │   ├── 5.4.1 Config/",
   "│   │   ├── 5.4.2 Core/",
   "└── 6 📁 Transport_Layer/"]

/-- Canonical text for the C10 witness: no line mentions the requested
domain `Template_System`. -/
def c10Lines : List String :=
  ["├── 4 📁 Core_Domain/",
   "│   ├── 4.2 📁 Processing_Router/"]

/- ------------------------------------------------------------------ -/
/- Theorems for claim C1                                               -/
/- ------------------------------------------------------------------ -/

/-- Claim C1 (counterexample): parsing the example line does NOT produce
the name "Processing_Router"; the normalization replaces each character
outside `[A-Za-z0-9_]` with its own underscore (no run collapsing), so
the trailing comment survives in the name. -/
theorem c1_parse_example_counterexample :
    (parse_ascii_line c1Line []).map HolyTreeEntity.name ≠ some "Processing_Router" ∧
    (parse_ascii_line c1Line []).map HolyTreeEntity.name
      = some "Processing_Router____________comment" := by
  decide

/-- Claim C1 (amended): parsing
`├── 4.2 📁 Processing_Router/          # comment` produces an entity
with kind Object, number "4.2", level 2, but name
"Processing_Router____________comment": each non-word character (the ten
spaces, `#`, and the space before `comment`) is replaced by an
underscore without collapsing, and only leading/trailing underscores are
trimmed, so the comment text survives into the name. -/
theorem c1_parse_example_name_corrected :
    parse_ascii_line c1Line [] = some {
      name := "Processing_Router____________comment"
      type := EntityType.object
      number := "4.2"
      level := 2
      parent_path := ""
      classification := []
      ascii_line := c1Line } := by
  decide

/- ------------------------------------------------------------------ -/
/- Helper lemmas about dotted numbers and the path resolver            -/
/- ------------------------------------------------------------------ -/

/-- Splitting on dots always yields at least one component. -/
theorem splitDotsAux_ne_nil (l : List Char) : ∀ acc, splitDotsAux l acc ≠ [] := by
  induction l with
  | nil => intro acc; simp [splitDotsAux]
  | cons c cs ih =>
    intro acc
    unfold splitDotsAux
    split
    · simp
    · exact ih _

/-- `number.split('.')` is never the empty list. -/
theorem splitDots_ne_nil (s : String) : splitDots s ≠ [] :=
  splitDotsAux_ne_nil _ _

/-- Joining the first component alone gives the head component. -/
theorem joinParts_take_one (ps : List (List Char)) (h : ps ≠ []) :
    joinParts (ps.take 1) = ps.headD [] := by
  cases ps with
  | nil => exact absurd rfl h
  | cons p ps => simp [joinParts, List.intercalate]

/-- Arm lemma: path parts of a Domain entity. -/
theorem cdpp_domain (g : HolyTreeGraph) (e : HolyTreeEntity)
    (ht : e.type = EntityType.domain) :
    construct_directory_path_parts g e = [e.name] := by
  unfold construct_directory_path_parts
  rw [ht]

/-- Arm lemma: path parts of an Object entity. -/
theorem cdpp_object (g : HolyTreeGraph) (e : HolyTreeEntity)
    (ht : e.type = EntityType.object) :
    construct_directory_path_parts g e =
      (match get_entity_by_number g ⟨(splitDots e.number).headD []⟩ with
       | some d => [d.name, e.name]
       | none => []) := by
  unfold construct_directory_path_parts
  rw [ht]

/-- Arm lemma: path parts of a Layer entity. -/
theorem cdpp_layer (g : HolyTreeGraph) (e : HolyTreeEntity)
    (ht : e.type = EntityType.layer) :
    construct_directory_path_parts g e =
      (if 2 ≤ (splitDots e.number).length then
        match get_entity_by_number g ⟨(splitDots e.number).headD []⟩,
              get_entity_by_number g ⟨joinParts ((splitDots e.number).take 2)⟩ with
        | some d, some o => [d.name, o.name, e.name]
        | some _, none => []
        | none, _ => []
      else []) := by
  unfold construct_directory_path_parts
  rw [ht]

/- ------------------------------------------------------------------ -/
/- Theorems for claim C5                                               -/
/- ------------------------------------------------------------------ -/

/-- Claim C5 (code bug): `validate_holy_tree_structure` does NOT return
a report for every graph — whenever the graph contains at least one
level-1 entity, the numerical-consistency loop evaluates
`num.match(r'^\d+$')` on a `str`, raising `AttributeError` before any
report can be built.  The spec (non-fatal issues, "the validator never
blocks downstream operations") is clearly the intent and
`num.match(...)` a slip for `re.match(..., num)`. -/
theorem c5_validate_raises_on_domains (g : HolyTreeGraph)
    (h : domainLevelNumbers g ≠ []) :
    validate_holy_tree_structure g = Except.error "AttributeError" := by
  cases hd : domainLevelNumbers g with
  | nil => exact absurd hd h
  | cons a as => simp [validate_holy_tree_structure, hd]

/-- Witness for C5: a single parsed Domain makes validate() raise. -/
theorem c5_validate_raises_on_domains_witness :
    validate_holy_tree_structure [demoDomain] = Except.error "AttributeError" :=
  c5_validate_raises_on_domains [demoDomain] (by decide)

/- ------------------------------------------------------------------ -/
/- Theorems for claim C6                                               -/
/- ------------------------------------------------------------------ -/

/-- Claim C6 (counterexample): the integrity score is NOT
`max(0, 100 − 10 × issueCount)` — there is no clamping at zero.  A graph
with eleven missing-parent issues (and no level-1 entity, so validation
does not raise) yields the score string `"-10%"`, while the claimed
formula would give `0`. -/
theorem c6_negative_score_counterexample :
    (validate_holy_tree_structure c6Graph11).toOption.map ValidationReport.integrity_score
      = some "-10%" ∧
    (100 - 10 * ((missingParentIssues c6Graph11).length : Int)) < 0 ∧
    max 0 (100 - 10 * ((missingParentIssues c6Graph11).length : Int)) = 0 := by
  decide

/-- Claim C6 (amended): for every graph with no level-1 entity (so the
broken domain-number loop never executes, see C5), validate() returns
the report with the missing-parent issues in dict order and
`integrityScore = 100 − 10 × issueCount` rendered as a percent string —
unclamped, hence possibly negative; in particular the graph containing
only Layer "4.2.1" yields exactly
issues = ["Missing parent for 4.2.1: parent 4.2 not found"] and score 90. -/
theorem c6_integrity_score_amended (g : HolyTreeGraph)
    (h : domainLevelNumbers g = []) :
    validate_holy_tree_structure g = Except.ok {
      valid := (missingParentIssues g).isEmpty
      issues := missingParentIssues g
      integrity_score := toString (100 - 10 * ((missingParentIssues g).length : Int)) ++ "%" } := by
  simp [validate_holy_tree_structure, h]

/-- Witness for C6 (the spec's own example): Layer "4.2.1" with no
entity "4.2" gives the stated single issue and score "90%". -/
theorem c6_integrity_score_amended_witness :
    validate_holy_tree_structure c6Graph1 =
      Except.ok ⟨false, ["Missing parent for 4.2.1: parent 4.2 not found"], "90%"⟩ :=
  (c6_integrity_score_amended c6Graph1 (by decide)).trans (congrArg Except.ok (by decide))

/- ------------------------------------------------------------------ -/
/- Theorems for claim C7                                               -/
/- ------------------------------------------------------------------ -/

/-- Arm lemma for the Object arm of the ancestor-lookup-miss condition. -/
theorem alm_object (g : HolyTreeGraph) (e : HolyTreeEntity)
    (ht : e.type = EntityType.object) :
    ancestorLookupMisses g e = !isKey g ⟨(splitDots e.number).headD []⟩ := by
  unfold ancestorLookupMisses
  rw [ht]

/-- Arm lemma for the Layer arm of the ancestor-lookup-miss condition. -/
theorem alm_layer (g : HolyTreeGraph) (e : HolyTreeEntity)
    (ht : e.type = EntityType.layer) :
    ancestorLookupMisses g e =
      (if 2 ≤ (splitDots e.number).length then
        !isKey g ⟨(splitDots e.number).headD []⟩
          || !isKey g ⟨joinParts ((splitDots e.number).take 2)⟩
      else true) := by
  unfold ancestorLookupMisses
  rw [ht]

/-- Claim C7 (counterexample): the resolver's miss condition does NOT
agree with the validator's missing-parent condition.  The Object
numbered "4.2.1" (graph: Domain "4" present, "4.2" absent) has a
missing-parent StructuralIssue, yet the resolver only looks up the
first component "4" and returns the usable two-segment path
["Core_Domain", "Processing_Router"]. -/
theorem c7_agreement_counterexample :
    missingParentIssue c7Graph c7Object
      = some "Missing parent for 4.2.1: parent 4.2 not found" ∧
    construct_directory_path_parts c7Graph c7Object
      = ["Core_Domain", "Processing_Router"] ∧
    construct_directory_path_parts c7Graph c7Object ≠ [] := by
  decide

/-- Claim C7 (amended): whenever the resolver's own ancestor lookups
miss (an Object whose first-component Domain number is absent; a Layer
whose first-component or first-two-component number is absent, or whose
number has a single component), path resolution returns no path parts
(the source then returns the bare project root, never raising).  This
condition does NOT coincide exactly with the validator's missing-parent
condition: they differ on Objects with three-component numbers (see the
counterexample). -/
theorem c7_ancestor_miss_no_path (g : HolyTreeGraph) (e : HolyTreeEntity)
    (h : ancestorLookupMisses g e = true) :
    construct_directory_path_parts g e = [] := by
  cases ht : e.type with
  | domain =>
    exfalso
    simp [ancestorLookupMisses, ht] at h
  | object =>
    rw [cdpp_object g e ht]
    rw [alm_object g e ht] at h
    unfold isKey at h
    cases hq : get_entity_by_number g ⟨(splitDots e.number).headD []⟩ with
    | none => rfl
    | some d =>
      exfalso
      rw [hq] at h
      simp at h
  | layer =>
    rw [cdpp_layer g e ht]
    rw [alm_layer g e ht] at h
    by_cases hlen : 2 ≤ (splitDots e.number).length
    · rw [if_pos hlen] at h ⊢
      unfold isKey at h
      cases hq1 : get_entity_by_number g ⟨(splitDots e.number).headD []⟩ with
      | none => rfl
      | some d =>
        rw [hq1] at h
        cases hq2 : get_entity_by_number g ⟨joinParts ((splitDots e.number).take 2)⟩ with
        | none => rfl
        | some o =>
          exfalso
          rw [hq2] at h
          simp at h
    · rw [if_neg hlen]

/-- Witness for C7: an Object whose Domain "7" is absent from the empty
graph resolves to no path parts. -/
theorem c7_ancestor_miss_no_path_witness :
    construct_directory_path_parts [] c7MissObject = [] :=
  c7_ancestor_miss_no_path [] c7MissObject (by decide)

/- ------------------------------------------------------------------ -/
/- Theorems for claim C8                                               -/
/- ------------------------------------------------------------------ -/

/-- Claim C8 (counterexample): segment count does NOT equal the entity's
level.  In a graph consisting of Domain "4" and a two-component Layer
"4.2" (a numbered tree line without the folder glyph parses as a Layer),
there is no structural issue anywhere and the Layer has zero reachable
issues, yet the resolver looks up the Layer's own number as the "object"
ancestor and returns a THREE-segment path for the level-2 entity. -/
theorem c8_level_segments_counterexample :
    missingParentIssues c8Graph = [] ∧
    reachableIssueFree c8Graph c8Layer = true ∧
    (construct_directory_path_parts c8Graph c8Layer).length = 3 ∧
    c8Layer.level = 2 ∧
    (construct_directory_path_parts c8Graph c8Layer).length ≠ c8Layer.level := by
  decide

/-- Claim C8 (amended): for every entity of the graph with zero
reachable StructuralIssues (every dotted prefix of its number present,
pure-integer domain ancestor), path resolution yields a segment count
fixed by the entity's KIND, not its level: 1 for a Domain, 2 for an
Object (even when its number has three components), and 3 for a Layer
whose number has at least two components; a Layer with a
single-component number yields no path at all.  Kind arity and level
agree only when an Object has exactly two components and a Layer
exactly three. -/
theorem c8_segment_count_amended (g : HolyTreeGraph) (e : HolyTreeEntity)
    (he : e ∈ g) (hz : reachableIssueFree g e = true) :
    (e.type = EntityType.domain → construct_directory_path_parts g e = [e.name]) ∧
    (e.type = EntityType.object → (construct_directory_path_parts g e).length = 2) ∧
    (e.type = EntityType.layer → 2 ≤ (splitDots e.number).length →
      (construct_directory_path_parts g e).length = 3) ∧
    (e.type = EntityType.layer → (splitDots e.number).length < 2 →
      construct_directory_path_parts g e = []) := by
  have hparts : splitDots e.number ≠ [] := splitDots_ne_nil e.number
  have hlen1 : 0 < (splitDots e.number).length := List.length_pos.mpr hparts
  unfold reachableIssueFree at hz
  have hall : ∀ x ∈ prefixNumbersOf e.number, isKey g x = true :=
    List.all_eq_true.mp ((Bool.and_eq_true _ _).mp hz).1
  have h1 : isKey g ⟨(splitDots e.number).headD []⟩ = true := by
    have hmem : (⟨joinParts ((splitDots e.number).take 1)⟩ : String) ∈ prefixNumbersOf e.number :=
      List.mem_map.mpr ⟨0, List.mem_range.mpr hlen1, rfl⟩
    have hk := hall _ hmem
    rwa [joinParts_take_one _ hparts] at hk
  refine ⟨?_, ?_, ?_, ?_⟩
  · intro ht
    exact cdpp_domain g e ht
  · intro ht
    rw [cdpp_object g e ht]
    unfold isKey at h1
    obtain ⟨d, hd⟩ := Option.isSome_iff_exists.mp h1
    rw [hd]
    rfl
  · intro ht hlen2
    rw [cdpp_layer g e ht, if_pos hlen2]
    have h2 : isKey g ⟨joinParts ((splitDots e.number).take 2)⟩ = true := by
      have hmem : (⟨joinParts ((splitDots e.number).take 2)⟩ : String) ∈ prefixNumbersOf e.number :=
        List.mem_map.mpr ⟨1, List.mem_range.mpr (by omega), rfl⟩
      exact hall _ hmem
    unfold isKey at h1 h2
    obtain ⟨d, hd⟩ := Option.isSome_iff_exists.mp h1
    obtain ⟨o, ho⟩ := Option.isSome_iff_exists.mp h2
    rw [hd, ho]
    rfl
  · intro ht hlen2
    rw [cdpp_layer g e ht, if_neg (by omega)]

/-- Witness for C8: the well-formed Layer "4.2.1" of the demonstration
graph resolves to exactly three segments. -/
theorem c8_segment_count_amended_witness :
    (construct_directory_path_parts demoGraph demoLayer).length = 3 :=
  (c8_segment_count_amended demoGraph demoLayer (by decide) (by decide)).2.2.1 rfl (by decide)

/- ------------------------------------------------------------------ -/
/- Helper lemmas about the generation loop                             -/
/- ------------------------------------------------------------------ -/

/-- The creation loop's `entity.type in ['domain','object','layer']`
membership test is true for every entity kind. -/
theorem entityType_listed (t : EntityType) :
    t = EntityType.domain ∨ t = EntityType.object ∨ t = EntityType.layer := by
  cases t
  · exact Or.inl rfl
  · exact Or.inr (Or.inl rfl)
  · exact Or.inr (Or.inr rfl)

/-- A constructed directory path always starts with the project root. -/
theorem construct_directory_path_ne_nil (g : HolyTreeGraph) (e : HolyTreeEntity) :
    construct_directory_path g e ≠ [] := by
  simp [construct_directory_path]

/-- `mkdir` creates the requested directory. -/
theorem mem_mkdirParents_self (fs : List DirPath) (p : DirPath) (hp : p ≠ []) :
    p ∈ mkdirParents fs p := by
  unfold mkdirParents dirPrefixes
  refine List.mem_append_right _ (List.mem_filter.mpr ⟨(List.mem_inits _ _).mpr (List.prefix_refl p), ?_⟩)
  cases p with
  | nil => exact absurd rfl hp
  | cons a as => rfl

/-- `mkdir` never removes an existing directory. -/
theorem mem_mkdirParents_of_mem (fs : List DirPath) (p q : DirPath) (hq : q ∈ fs) :
    q ∈ mkdirParents fs p :=
  List.mem_append_left _ hq

/-- One step of the creation loop never removes a directory. -/
theorem generateStep_fst_mono (g : HolyTreeGraph) (mode : CreateMode)
    (acc : List DirPath × List DirPath) (e : HolyTreeEntity)
    (q : DirPath) (hq : q ∈ acc.1) : q ∈ (generateStep g mode acc e).1 := by
  unfold generateStep
  split
  · split
    · exact mem_mkdirParents_of_mem _ _ _ hq
    · exact hq
  · exact hq

/-- One step of the creation loop ensures the entity's own directory
exists afterwards (created now or already present). -/
theorem generateStep_mem (g : HolyTreeGraph) (mode : CreateMode)
    (acc : List DirPath × List DirPath) (e : HolyTreeEntity) :
    construct_directory_path g e ∈ (generateStep g mode acc e).1 := by
  unfold generateStep
  rw [if_pos (entityType_listed e.type)]
  split
  · exact mem_mkdirParents_self _ _ (construct_directory_path_ne_nil g e)
  · rename_i hcond
    push_neg at hcond
    exact hcond.2

/-- The whole creation loop never removes a directory. -/
theorem generateFold_fst_mono (g : HolyTreeGraph) (mode : CreateMode)
    (es : List HolyTreeEntity) :
    ∀ (acc : List DirPath × List DirPath) (q : DirPath), q ∈ acc.1 →
      q ∈ (es.foldl (generateStep g mode) acc).1 := by
  induction es with
  | nil => intro acc q hq; simpa using hq
  | cons e es ih =>
    intro acc q hq
    rw [List.foldl_cons]
    exact ih _ _ (generateStep_fst_mono g mode acc e q hq)

/-- After the creation loop, every processed entity's directory exists. -/
theorem generateFold_mem (g : HolyTreeGraph) (mode : CreateMode)
    (es : List HolyTreeEntity) :
    ∀ (acc : List DirPath × List DirPath) (e : HolyTreeEntity), e ∈ es →
      construct_directory_path g e ∈ (es.foldl (generateStep g mode) acc).1 := by
  induction es with
  | nil => intro acc e he; exact absurd he (List.not_mem_nil e)
  | cons a es ih =>
    intro acc e he
    rw [List.foldl_cons]
    rcases List.mem_cons.mp he with h | h
    · subst h
      exact generateFold_fst_mono g mode es _ _ (generateStep_mem g mode acc e)
    · exact ih _ e h

/-- In incremental mode, when every entity's directory already exists
the creation loop is a no-op (nothing created, filesystem unchanged). -/
theorem generateFold_noop (g : HolyTreeGraph) (es : List HolyTreeEntity) :
    ∀ (acc : List DirPath × List DirPath),
      (∀ e ∈ es, construct_directory_path g e ∈ acc.1) →
      es.foldl (generateStep g CreateMode.incremental) acc = acc := by
  induction es with
  | nil => intro acc _; rfl
  | cons a es ih =>
    intro acc hmem
    rw [List.foldl_cons]
    have hstep : generateStep g CreateMode.incremental acc a = acc := by
      unfold generateStep
      rw [if_pos (entityType_listed a.type),
          if_neg (by push_neg; exact ⟨by decide, hmem a (List.mem_cons_self a es)⟩)]
    rw [hstep]
    exact ih acc (fun e he => hmem e (List.mem_cons_of_mem a he))

/- ------------------------------------------------------------------ -/
/- Theorems for claim C3                                               -/
/- ------------------------------------------------------------------ -/

/-- Claim C3 (code bug): "full" mode does NOT delete the generation
root first.  Running full-mode generation over a filesystem whose root
contains a stale directory leaves the stale directory in place — the
loop only ever calls `mkdir` (`exist_ok=True`) and contains no deletion,
contradicting both the claim and the function's own docstring
("Remove existing and create from scratch"). -/
theorem c3_full_mode_never_deletes :
    ["ROMILLM_Project", "Stale_Component"]
      ∈ (generate_project_from_holy_tree [demoDomain] CreateMode.full c3Fs).1 ∧
    (generate_project_from_holy_tree [demoDomain] CreateMode.full c3Fs).2
      = [["ROMILLM_Project", "Core_Domain"]] := by
  decide

/- ------------------------------------------------------------------ -/
/- Theorems for claim C4                                               -/
/- ------------------------------------------------------------------ -/

/-- Claim C4 (counterexample): the reconciler consults no
classification at all and creates directories for Layer entities too.
The demonstration Layer "4.2.1 Config" has the parser's empty
classification (every flag, including materialize/project_structure,
reads False), yet incremental generation from an empty filesystem
records its own directory in `created_directories`. -/
theorem c4_layer_directory_counterexample :
    classificationGet demoLayer "materialize" = false ∧
    classificationGet demoLayer "project_structure" = false ∧
    construct_directory_path demoGraph demoLayer
      ∈ (generate_project_from_holy_tree demoGraph CreateMode.incremental []).2 := by
  decide

/-- Claim C4 (amended): during reconciliation a directory is ensured
for EVERY entity of the graph — Domain, Object and Layer alike — with
the classification dict never consulted; Layer entities are not
excluded (an entity whose ancestors miss contributes the bare project
root, since its path-parts list is empty). -/
theorem c4_reconcile_creates_for_all_kinds (g : HolyTreeGraph) (fs : List DirPath)
    (e : HolyTreeEntity) (he : e ∈ g) :
    construct_directory_path g e
      ∈ (generate_project_from_holy_tree g CreateMode.incremental fs).1 := by
  unfold generate_project_from_holy_tree
  exact generateFold_mem g CreateMode.incremental g (fs, []) e he

/-- Witness for C4: the demonstration Layer's directory exists after
incremental generation from an empty filesystem. -/
theorem c4_reconcile_creates_for_all_kinds_witness :
    construct_directory_path demoGraph demoLayer
      ∈ (generate_project_from_holy_tree demoGraph CreateMode.incremental []).1 :=
  c4_reconcile_creates_for_all_kinds demoGraph [] demoLayer (by decide)

/- ------------------------------------------------------------------ -/
/- Theorems for claim C9                                               -/
/- ------------------------------------------------------------------ -/

/-- Claim C9 (confirmed): incremental reconciliation is idempotent.
For every graph and starting filesystem, running the incremental
creation loop a second time on the filesystem produced by the first run
creates zero additional directories and leaves the filesystem
unchanged: every entity's directory already exists after the first run
and existing directories are left untouched. -/
theorem c9_incremental_idempotent (g : HolyTreeGraph) (fs : List DirPath) :
    generate_project_from_holy_tree g CreateMode.incremental
        (generate_project_from_holy_tree g CreateMode.incremental fs).1
      = ((generate_project_from_holy_tree g CreateMode.incremental fs).1, []) := by
  unfold generate_project_from_holy_tree
  exact generateFold_noop g g _
    (fun e he => generateFold_mem g CreateMode.incremental g (fs, []) e he)

/- ------------------------------------------------------------------ -/
/- Helper lemmas about the removal cascade and the insertion scans     -/
/- ------------------------------------------------------------------ -/

/-- When every line is non-blank and none has a digit-leading first
token, the cascade collects all of them and keeps nothing. -/
theorem cascadeSplit_all_removed (ls : List String)
    (h : ∀ l ∈ ls, (trimChars l.data).isEmpty = false ∧ firstTokenStartsDigit l = false) :
    cascadeSplit ls = (ls.length, []) := by
  induction ls with
  | nil => rfl
  | cons l ls ih =>
    obtain ⟨h1, h2⟩ := h l (List.mem_cons_self l ls)
    simp [cascadeSplit, h1, h2, ih (fun x hx => h x (List.mem_cons_of_mem l hx))]

/-- A scan over lines none of which satisfies the predicate finds no
index. -/
theorem findIdxFrom_eq_none (p : String → Bool) (ls : List String)
    (h : ∀ l ∈ ls, p l = false) : findIdxFrom p ls = none := by
  induction ls with
  | nil => rfl
  | cons l ls ih =>
    unfold findIdxFrom
    rw [if_neg (by simp [h l (List.mem_cons_self l ls)])]
    rw [ih (fun x hx => h x (List.mem_cons_of_mem l hx))]
    rfl

/- ------------------------------------------------------------------ -/
/- Theorems for claim C2                                               -/
/- ------------------------------------------------------------------ -/

/-- Claim C2 (counterexample): removal does NOT stop before later
sibling entities.  Removing "Processing_Router" from a text containing
the later sibling object line `4.3` deletes that sibling too: the stop
test inspects the line's first whitespace token, which for
glyph-prefixed tree lines is the box-drawing character, never a
top-level integer, so the cascade runs to the end of the text. -/
theorem c2_remove_counterexample :
    remove_entity_from_holy_tree "Processing_Router" c2Lines
      = some (["├── 4 📁 Core_Domain/"], 3) ∧
    "│   ├── 4.3 📁 Other_Component/" ∉ (["├── 4 📁 Core_Domain/"] : List String) := by
  decide

/-- Claim C2 (amended): Remove deletes the first line containing the
name and a materialization marker plus every following NON-BLANK line
up to (excluding) the next line whose first whitespace-delimited token
starts with a digit; since glyph-prefixed tree lines never have a
digit-leading first token, in canonical texts the cascade removes every
non-blank line to the end of the text — including later sibling and
domain entities — and only the lines before the match survive. -/
theorem c2_remove_cascade_amended (pre : List String) (el : String) (rest : List String)
    (name : String)
    (hpre : ∀ l ∈ pre, lineMatchesEntity name l = false)
    (hel : lineMatchesEntity name el = true)
    (helNB : (trimChars el.data).isEmpty = false)
    (helTok : firstTokenStartsDigit el = false)
    (hrest : ∀ l ∈ rest, (trimChars l.data).isEmpty = false ∧ firstTokenStartsDigit l = false) :
    remove_entity_from_holy_tree name (pre ++ el :: rest) = some (pre, rest.length + 1) := by
  revert hpre
  induction pre with
  | nil =>
    intro _
    rw [List.nil_append]
    unfold remove_entity_from_holy_tree
    rw [if_pos hel]
    have hall : ∀ l ∈ el :: rest,
        (trimChars l.data).isEmpty = false ∧ firstTokenStartsDigit l = false := by
      intro l hl
      rcases List.mem_cons.mp hl with h | h
      · subst h; exact ⟨helNB, helTok⟩
      · exact hrest l h
    rw [cascadeSplit_all_removed (el :: rest) hall]
    rfl
  | cons p pre ih =>
    intro hpre
    rw [List.cons_append]
    unfold remove_entity_from_holy_tree
    rw [if_neg (by simp [hpre p (List.mem_cons_self p pre)])]
    rw [ih (fun l hl => hpre l (List.mem_cons_of_mem p hl))]
    rfl

/-- Witness for C2: removing the object `5.4` deletes its own line, its
two layer lines AND the later sibling domain line `6`, keeping only the
line before the match. -/
theorem c2_remove_cascade_amended_witness :
    remove_entity_from_holy_tree "Documentation_Generator" c2WitnessLines
      = some (["├── 5 📁 Template_System/"], 4) :=
  c2_remove_cascade_amended ["├── 5 📁 Template_System/"]
    "│   ├── 5.4 📁 Documentation_Generator/"
    ["│   │   ├── 5.4.1 Config/", "│   │   ├── 5.4.2 Core/", "└── 6 📁 Transport_Layer/"]
    "Documentation_Generator" (by decide) (by decide) (by decide) (by decide) (by decide)

/- ------------------------------------------------------------------ -/
/- Theorems for claim C10                                              -/
/- ------------------------------------------------------------------ -/

/-- Claim C10 (confirmed): when the required fields are non-empty but
no line of the canonical text contains `domain + "/"`, both insertion
scans fail, `insert_index` stays `-1`, and the function body ends
without a `return`: the operation yields `None` (not a
`success=False` dict) and the canonical lines are unchanged (the file
write only happens inside the insertion branch). -/
theorem c10_add_entity_domain_missing (lines : List String)
    (entityName domain proposedNumber description : String) (layers : List String)
    (hn : entityName ≠ "") (hd : domain ≠ "") (hp : proposedNumber ≠ "")
    (hmiss : ∀ l ∈ lines, containsSubstr (domain ++ "/") l = false) :
    add_entity_to_holy_tree lines entityName domain proposedNumber description layers
      = (none, lines) := by
  unfold add_entity_to_holy_tree
  rw [if_neg (by push_neg; exact ⟨hn, hd, hp⟩)]
  have h1 : findIdxFrom (addInsertCond1 domain proposedNumber) lines = none :=
    findIdxFrom_eq_none _ _ (fun l hl => by
      unfold addInsertCond1
      rw [hmiss l hl]
      rfl)
  have h2 : findIdxFrom (fun l => containsSubstr (domain ++ "/") l) lines = none :=
    findIdxFrom_eq_none _ _ (fun l hl => hmiss l hl)
  rw [h1, h2]

/-- Witness for C10: inserting into a text that never mentions
`Template_System/` returns `None` with the lines unchanged. -/
theorem c10_add_entity_domain_missing_witness :
    add_entity_to_holy_tree c10Lines "Automated_Documentation_Generator" "Template_System"
        "5.4" "Automated generation of documentation" ["Config", "Toolbox"]
      = (none, c10Lines) :=
  c10_add_entity_domain_missing c10Lines _ _ _ _ _
    (by decide) (by decide) (by decide) (by decide)
